import Mathlib

/-!
Verification of the GIF-maker conversion pipeline (`src/App.tsx`).

The development shallowly embeds the pipeline logic of the React component:
the preset table, the numeric sanitisation and formatting helpers, the two
ffmpeg argument lists (palette pass and render pass), the engine-session
loader `loadFFmpeg`, the orchestrator `generateGif`, and the object-URL
publication block.  JavaScript numbers are modelled as exact rationals,
byte buffers as `List Nat`, and the asynchronous engine as a deterministic
`EngineBehavior` record saying which awaited engine call succeeds.  The
orchestrator returns its final component state together with the ordered
trace of observable events (engine calls, URL revocations/mints, and the
pipeline phase markers placed at the corresponding source lines).
-/

namespace GifMaker

/-- Dither strategies offered by the UI (`Settings['dither']` in the source). -/
inductive Dither where
  | none
  | bayer
  | floyd_steinberg
  | sierra2
  | sierra2_4a
deriving DecidableEq

/-- The string the source interpolates for each dither value. -/
def ditherStr : Dither → String
  | .none => "none"
  | .bayer => "bayer"
  | .floyd_steinberg => "floyd_steinberg"
  | .sierra2 => "sierra2"
  | .sierra2_4a => "sierra2_4a"

/-- Preset keys (`PresetKey` in the source). -/
inductive PresetKey where
  | ultra
  | balanced
  | compact
deriving DecidableEq

/-- The `Settings` record of the source. -/
structure Settings where
  fps : ℤ
  width : ℤ
  colors : ℤ
  dither : Dither
deriving DecidableEq

/-- The `PRESETS` table of the source. -/
def PRESETS : PresetKey → Settings
  | .ultra => { fps := 20, width := 1280, colors := 256, dither := .sierra2_4a }
  | .balanced => { fps := 15, width := 960, colors := 256, dither := .sierra2_4a }
  | .compact => { fps := 12, width := 720, colors := 128, dither := .bayer }

/-- `Math.max` on JavaScript numbers, modelled on exact rationals. -/
def jsMax (a b : ℚ) : ℚ :=
  if a ≤ b then b else a

/-- `Math.max` on integer-valued inputs (the colors clamp). -/
def jsMaxInt (a b : ℤ) : ℤ :=
  if a ≤ b then b else a

/-- `Math.min` on integer-valued inputs (the colors clamp). -/
def jsMinInt (a b : ℤ) : ℤ :=
  if a ≤ b then a else b

/-- Absolute value, written out so it evaluates by kernel reduction. -/
def jsAbs (q : ℚ) : ℚ :=
  if q < 0 then -q else q

/-- Two right-padded decimal digits for a value below 100 (helper for
`toFixed`). -/
def pad2 (n : ℕ) : String :=
  if n < 10 then "0" ++ toString n else toString n

/-- Model of the source helper `toFixed = (value) => value.toFixed(2)`:
fixed two-decimal rendering of a JavaScript number, here an exact rational,
rounding half away from zero. -/
def toFixed (v : ℚ) : String :=
  let n : ℕ := ((jsAbs v * 100 + mkRat 1 2).floor).toNat
  (if v < 0 then "-" else "") ++ toString (n / 100) ++ "." ++ pad2 (n % 100)

/-- Fractional decimal digits of a rational in `[0,1)`, most significant
first, stopping at the first exact remainder (fuel-bounded). -/
def fracDigits : ℕ → ℚ → String
  | 0, _ => ""
  | fuel + 1, q =>
    if q = 0 then ""
    else
      let q10 := q * 10
      toString q10.floor.toNat ++ fracDigits fuel (q10 - q10.floor)

/-- Model of JavaScript default number-to-string conversion (used by the
source's template literals `setpts=PTS/${speed}` and `String(loopCount)`):
integer values print without a decimal point, finite decimals print their
digits with no trailing zeros. -/
def jsToString (q : ℚ) : String :=
  let fs := fracDigits 30 (jsAbs q - (jsAbs q).floor)
  (if q < 0 then "-" else "") ++ toString (jsAbs q).floor.toNat ++
    (if fs = "" then "" else "." ++ fs)

/-- The `trimArgs` local of `generateGif`:
`['-ss', toFixed(Math.max(0, startSec)), '-t', toFixed(Math.max(0.2, durationSec))]`. -/
def trimArgs (startSec durationSec : ℚ) : List String :=
  ["-ss", toFixed (jsMax 0 startSec), "-t", toFixed (jsMax (mkRat 1 5) durationSec)]

/-- The `speedFilter` local: empty when `speed === 1`, otherwise
`,setpts=PTS/${speed}`. -/
def speedFilter (speed : ℚ) : String :=
  if speed = 1 then "" else ",setpts=PTS/" ++ jsToString speed

/-- The `scaleAndRate` local:
`fps=${fps},scale=${width}:-1:flags=lanczos${speedFilter}`. -/
def scaleAndRate (fps width : ℤ) (speed : ℚ) : String :=
  "fps=" ++ toString fps ++ ",scale=" ++ toString width ++ ":-1:flags=lanczos" ++
    speedFilter speed

/-- The colors clamp of the palette pass: `Math.max(2, Math.min(256, colors))`. -/
def clampColors (colors : ℤ) : ℤ :=
  jsMaxInt 2 (jsMinInt 256 colors)

/-- The `-vf` filter string of the palette pass:
`${scaleAndRate},palettegen=max_colors=${...}:stats_mode=full`. -/
def paletteVf (fps width colors : ℤ) (speed : ℚ) : String :=
  scaleAndRate fps width speed ++ ",palettegen=max_colors=" ++
    toString (clampColors colors) ++ ":stats_mode=full"

/-- The full argument list of the first `ffmpeg.exec` call (palette pass). -/
def paletteArgs (inputName paletteName : String) (fps width colors : ℤ)
    (startSec durationSec speed : ℚ) : List String :=
  ["-y", "-i", inputName] ++ trimArgs startSec durationSec ++
    ["-frames:v", "1", "-update", "1", "-vf",
      paletteVf fps width colors speed, paletteName]

/-- The `-lavfi` filter string of the render pass:
`${scaleAndRate}[x];[x][1:v]paletteuse=dither=${dither}:diff_mode=rectangle`. -/
def renderVf (fps width : ℤ) (dither : Dither) (speed : ℚ) : String :=
  scaleAndRate fps width speed ++ "[x];[x][1:v]paletteuse=dither=" ++
    ditherStr dither ++ ":diff_mode=rectangle"

/-- The full argument list of the second `ffmpeg.exec` call (render pass). -/
def renderArgs (inputName paletteName outputName : String) (fps width : ℤ)
    (dither : Dither) (loopCount : ℤ) (startSec durationSec speed : ℚ) :
    List String :=
  ["-y", "-i", inputName] ++ trimArgs startSec durationSec ++
    ["-i", paletteName, "-lavfi", renderVf fps width dither speed,
      "-loop", toString loopCount, outputName]

/-- Substring containment on strings (used to state which tokens a built
filter expression contains). -/
def strContains (s pat : String) : Prop :=
  pat.data <:+: s.data

instance (s pat : String) : Decidable (strContains s pat) :=
  inferInstanceAs (Decidable (pat.data <:+: s.data))

/-- The pipeline phases named by the specification's Job state machine.
`generateGif` below emits a marker for each phase at the source line the
phase corresponds to, so that claims about phase ordering can be stated. -/
inductive JobState where
  | Validating
  | AwaitingEngine
  | WritingInput
  | GeneratingPalette
  | Rendering
  | ReadingOutput
  | CleaningUp
  | Done
  | Failed
deriving DecidableEq

/-- Observable events of a run: awaited engine operations, object-URL
revocation/minting, and the phase markers. -/
inductive Ev where
  | phase (j : JobState)
  | engineLoad
  | engineWrite (name : String)
  | engineExec (args : List String)
  | engineRead (name : String)
  | engineDelete (name : String)
  | revokeUrl (url : ℕ)
  | mintUrl (url : ℕ)
deriving DecidableEq

/-- What `ffmpeg.readFile` hands back: the source checks
`data instanceof Uint8Array` and otherwise runs the string through a
`TextEncoder`. -/
inductive FileData where
  | bin (bytes : List ℕ)
  | str (s : String)
deriving DecidableEq

/-- The byte normalisation of `generateGif` (lines 132-133): a `Uint8Array`
is copied, a string is encoded (modelled as its character codes). -/
def normalizeBytes : FileData → List ℕ
  | .bin b => b
  | .str s => s.data.map Char.toNat

/-- Deterministic model of the asynchronous engine: which awaited call
succeeds, and what the output read returns (`none` models a throw). -/
structure EngineBehavior where
  loadOk : Bool
  writeOk : Bool
  paletteOk : Bool
  renderOk : Bool
  readOut : Option FileData
  deleteInputOk : Bool
  deletePaletteOk : Bool
  deleteOutputOk : Bool
deriving DecidableEq

/-- The component state the pipeline reads or writes: the `loaded`,
`generating`, `status`, `progress` and `gifUrl` hooks.  Object URLs are
modelled as consecutive naturals minted from `nextUrl`. -/
structure AppState where
  loaded : Bool
  generating : Bool
  status : String
  progress : ℚ
  gifUrl : Option ℕ
  nextUrl : ℕ
deriving DecidableEq

/-- The published result: the `Blob` built at line 134 plus the minted
object URL. -/
structure GifResult where
  bytes : List ℕ
  mimeType : String
  handle : ℕ
deriving DecidableEq

/-- The inputs `generateGif` reads from component state: the chosen file
(name only), the numeric settings, and `Date.now()` as `now`. -/
structure GenInput where
  file : Option String
  fps : ℤ
  width : ℤ
  colors : ℤ
  dither : Dither
  startSec : ℚ
  durationSec : ℚ
  speed : ℚ
  loopCount : ℤ
  now : ℕ
deriving DecidableEq

/-- Status strings of the source, verbatim. -/
def loadingStatus : String := "Loading ffmpeg core (first run can take ~30MB)..."

def loadedStatus : String := "ffmpeg loaded. Ready to generate."

def failStatus : String := "Conversion failed. Try a shorter clip or lower preset."

def noFileStatus : String := "Choose a video file first."

def doneStatus (bytes : List ℕ) : String :=
  "Done. GIF size " ++ toFixed (mkRat (bytes.length : ℤ) (1024 * 1024)) ++ " MB"

/-- The synchronous prefix of `loadFFmpeg` up to and including the launch of
`ffmpeg.load`: the early return when `loaded` is already true, otherwise the
status update and the issuing of the engine load (the returned flag).  The
function suspends at `await ffmpeg.load(...)` right after this prefix, so a
second caller arriving during the load observes the state this returns. -/
def loadFFmpegSync (s : AppState) : AppState × Bool :=
  if s.loaded then (s, false)
  else ({ s with status := loadingStatus }, true)

/-- The continuation of `loadFFmpeg` after `ffmpeg.load` resolves:
`setLoaded(true)` and the ready status. -/
def loadFFmpegResume (s : AppState) : AppState :=
  { s with loaded := true, status := loadedStatus }

/-- The whole `loadFFmpeg` as one awaited step, for use by `generateGif`:
state after the call, events emitted, and whether it completed without
throwing. -/
def loadFFmpeg (eng : EngineBehavior) (s : AppState) : AppState × List Ev × Bool :=
  match loadFFmpegSync s with
  | (s', false) => (s', [], true)
  | (s', true) =>
    if eng.loadOk then (loadFFmpegResume s', [Ev.engineLoad], true)
    else (s', [Ev.engineLoad], false)

/-- The object-URL slice of the component state that the publication block
(lines 135-137) touches. -/
structure Holder where
  gifUrl : Option ℕ
  nextUrl : ℕ
deriving DecidableEq

/-- The publication block of `generateGif` (lines 135-137):
`if (gifUrl) URL.revokeObjectURL(gifUrl); const url = URL.createObjectURL(blob);
setGifUrl(url);` — revoke the previous handle if any, then mint and store a
fresh one. -/
def publish (h : Holder) : Holder × List Ev :=
  (⟨some h.nextUrl, h.nextUrl + 1⟩,
    (match h.gifUrl with
      | some u => [Ev.revokeUrl u]
      | none => []) ++ [Ev.mintUrl h.nextUrl])

/-- `publish` iterated: `n` successive successful conversions. -/
def publishN : ℕ → Holder → Holder × List Ev
  | 0, h => (h, [])
  | n + 1, h =>
    let p := publish h
    let rest := publishN n p.1
    (rest.1, p.2 ++ rest.2)

/-- The input artifact name of a job: `input-${Date.now()}-${file.name}` (line 91). -/
def inputNameOf (now : ℕ) (fname : String) : String :=
  "input-" ++ toString now ++ "-" ++ fname

/-- The palette artifact name: `palette-${Date.now()}.png` (line 92). -/
def paletteNameOf (now : ℕ) : String :=
  "palette-" ++ toString now ++ ".png"

/-- The output artifact name: `output-${Date.now()}.gif` (line 93). -/
def outputNameOf (now : ℕ) : String :=
  "output-" ++ toString now ++ ".gif"

/-- The palette-pass argument list of a job, assembled from the job's
artifact names and numeric inputs. -/
def paletteArgsOf (inp : GenInput) (fname : String) : List String :=
  paletteArgs (inputNameOf inp.now fname) (paletteNameOf inp.now)
    inp.fps inp.width inp.colors inp.startSec inp.durationSec inp.speed

/-- The render-pass argument list of a job. -/
def renderArgsOf (inp : GenInput) (fname : String) : List String :=
  renderArgs (inputNameOf inp.now fname) (paletteNameOf inp.now) (outputNameOf inp.now)
    inp.fps inp.width inp.dither inp.loopCount inp.startSec inp.durationSec inp.speed

/-- The orchestrator `generateGif` (lines 78-149), embedded as a function of
the inputs, the engine behaviour and the pre-call component state.  Returns
the final component state, the ordered event trace, and the published
result if one was produced.  Failure of any awaited engine call transfers
control to the `catch` block (generic failure status) and then the
`finally` block (`setGenerating(false)`); note the three `deleteFile` calls
sit inside the `try` after the publication block, not in the `finally`. -/
def generateGif (inp : GenInput) (eng : EngineBehavior) (s0 : AppState) :
    AppState × List Ev × Option GifResult :=
  match inp.file with
  | Option.none => ({ s0 with status := noFileStatus }, [Ev.phase .Validating], none)
  | Option.some fname =>
    let L := loadFFmpeg eng s0
    let evs0 := [Ev.phase .Validating, Ev.phase .AwaitingEngine] ++ L.2.1
    if L.2.2 then
      let s2 := { L.1 with generating := true, progress := 0, status := "Preparing video..." }
      let iN := inputNameOf inp.now fname
      let pN := paletteNameOf inp.now
      let oN := outputNameOf inp.now
      let evs1 := evs0 ++ [Ev.phase .WritingInput, Ev.engineWrite iN]
      if eng.writeOk then
        let s3 := { s2 with status := "Generating color palette..." }
        let pArgs := paletteArgsOf inp fname
        let evs2 := evs1 ++ [Ev.phase .GeneratingPalette, Ev.engineExec pArgs]
        if eng.paletteOk then
          let s4 := { s3 with status := "Rendering GIF..." }
          let rArgs := renderArgsOf inp fname
          let evs3 := evs2 ++ [Ev.phase .Rendering, Ev.engineExec rArgs]
          if eng.renderOk then
            let evs4 := evs3 ++ [Ev.phase .ReadingOutput, Ev.engineRead oN]
            match eng.readOut with
            | Option.none =>
              ({ s4 with status := failStatus, generating := false },
                evs4 ++ [Ev.phase .Failed], none)
            | Option.some dat =>
              let bytes := normalizeBytes dat
              let pub := publish ⟨s4.gifUrl, s4.nextUrl⟩
              let s5 := { s4 with gifUrl := pub.1.gifUrl, nextUrl := pub.1.nextUrl, status := doneStatus bytes }
              let res : GifResult := ⟨bytes, "image/gif", s4.nextUrl⟩
              let evs5 := evs4 ++ [Ev.phase .Done] ++ pub.2 ++
                [Ev.phase .CleaningUp, Ev.engineDelete iN]
              if eng.deleteInputOk then
                let evs6 := evs5 ++ [Ev.engineDelete pN]
                if eng.deletePaletteOk then
                  let evs7 := evs6 ++ [Ev.engineDelete oN]
                  if eng.deleteOutputOk then
                    ({ s5 with generating := false }, evs7, some res)
                  else
                    ({ s5 with status := failStatus, generating := false },
                      evs7 ++ [Ev.phase .Failed], some res)
                else
                  ({ s5 with status := failStatus, generating := false },
                    evs6 ++ [Ev.phase .Failed], some res)
              else
                ({ s5 with status := failStatus, generating := false },
                  evs5 ++ [Ev.phase .Failed], some res)
          else
            ({ s4 with status := failStatus, generating := false },
              evs3 ++ [Ev.phase .Failed], none)
        else
          ({ s3 with status := failStatus, generating := false },
            evs2 ++ [Ev.phase .Failed], none)
      else
        ({ s2 with status := failStatus, generating := false },
          evs1 ++ [Ev.phase .Failed], none)
    else
      ({ L.1 with status := failStatus, generating := false },
        evs0 ++ [Ev.phase .Failed], none)

/-- Phase markers of a trace, in order. -/
def phasesOf (evs : List Ev) : List JobState :=
  evs.filterMap fun e => match e with
    | .phase j => some j
    | _ => none

/-- Revoked URL handles of a trace, in order. -/
def revokedOf (evs : List Ev) : List ℕ :=
  evs.filterMap fun e => match e with
    | .revokeUrl u => some u
    | _ => none

/-- Minted URL handles of a trace, in order. -/
def mintedOf (evs : List Ev) : List ℕ :=
  evs.filterMap fun e => match e with
    | .mintUrl u => some u
    | _ => none

/-- Recogniser for `deleteFile` events. -/
def isDeleteEv : Ev → Bool
  | .engineDelete _ => true
  | _ => false

/-- Recogniser for `ffmpeg.exec` events. -/
def isExecEv : Ev → Bool
  | .engineExec _ => true
  | _ => false

/-- A run configuration that makes `generateGif` reach the `catch` block at
or before `ffmpeg.readFile`, i.e. before the result is published: the
engine load (when needed), the input write, either pass, or the output read
throws. -/
def failsBeforePublish (eng : EngineBehavior) (s : AppState) : Prop :=
  (s.loaded = false ∧ eng.loadOk = false) ∨ eng.writeOk = false ∨
    eng.paletteOk = false ∨ eng.renderOk = false ∨ eng.readOut = none

/-- A sample chosen file, settings (the `compact` preset, the spec's
end-to-end scenario) and timestamp. -/
def sampleInp : GenInput :=
  { file := some "clip.mp4", fps := 12, width := 720, colors := 128,
    dither := .bayer, startSec := 0, durationSec := 3, speed := 1,
    loopCount := 0, now := 1000 }

/-- An engine behaviour where every awaited call succeeds and the output
read returns the six-byte GIF header. -/
def allOk : EngineBehavior :=
  { loadOk := true, writeOk := true, paletteOk := true, renderOk := true,
    readOut := some (.bin [71, 73, 70, 56, 57, 97]),
    deleteInputOk := true, deletePaletteOk := true, deleteOutputOk := true }

/-- The component state on first render. -/
def initState : AppState :=
  { loaded := false, generating := false,
    status := "Load ffmpeg and drop a video to begin.",
    progress := 0, gifUrl := none, nextUrl := 0 }

section ConcreteEval

attribute [local semireducible] Rat.mul Rat.add Rat.sub

theorem pad2_length : ∀ m < 100, (pad2 m).length = 2 := by
  decide

theorem publishN_props (n : ℕ) : ∀ u k,
    (publishN (n + 1) ⟨some u, k⟩).1.gifUrl = some (k + n) ∧
    revokedOf (publishN (n + 1) ⟨some u, k⟩).2 = u :: List.range' k n ∧
    mintedOf (publishN (n + 1) ⟨some u, k⟩).2 = List.range' k (n + 1) := by
  induction n with
  | zero => exact fun u k => ⟨rfl, rfl, rfl⟩
  | succ m ih =>
    intro u k
    obtain ⟨h1, h2, h3⟩ := ih k (k + 1)
    refine ⟨?_, ?_, ?_⟩
    · show (publishN (m + 1 + 1) ⟨some u, k⟩).1.gifUrl = some (k + (m + 1))
      simp only [publishN, publish] at h1 ⊢
      rw [h1]
      congr 1
      omega
    · simp only [publishN, publish, revokedOf, List.filterMap_append] at h2 ⊢
      rw [List.range'_succ]
      simpa using h2
    · simp only [publishN, publish, mintedOf, List.filterMap_append] at h3 ⊢
      rw [List.range'_succ]
      simpa using h3

/-- Claim C3: for settings `{fps:15, width:960, colors:256, dither:'sierra2_4a'}`
and trim `{startSec:2, durationSec:5, speed:1}`, the palette-pass argument
list contains the tokens `-ss 2.00`, `-t 5.00` and a filter containing
`palettegen=max_colors=256`; with `loopCount=0` the render-pass list contains
a filter containing `dither=sierra2_4a` and the tokens `-loop 0`. -/
theorem C3_builder_tokens :
    (["-ss", "2.00"] <:+: paletteArgs "in.mp4" "pal.png" 15 960 256 2 5 1) ∧
    (["-t", "5.00"] <:+: paletteArgs "in.mp4" "pal.png" 15 960 256 2 5 1) ∧
    paletteVf 15 960 256 1 ∈ paletteArgs "in.mp4" "pal.png" 15 960 256 2 5 1 ∧
    strContains (paletteVf 15 960 256 1) "palettegen=max_colors=256" ∧
    renderVf 15 960 .sierra2_4a 1 ∈
      renderArgs "in.mp4" "pal.png" "out.gif" 15 960 .sierra2_4a 0 2 5 1 ∧
    strContains (renderVf 15 960 .sierra2_4a 1) "dither=sierra2_4a" ∧
    (["-loop", "0"] <:+: renderArgs "in.mp4" "pal.png" "out.gif" 15 960 .sierra2_4a 0 2 5 1) := by
  decide

/-- Claim C4: numeric inputs are sanitised before reaching the engine
arguments: `colors` is clamped into `[2,256]` (500 becomes 256, 0 becomes
2), `durationSec` is floored at 0.2 (0.05 becomes `0.20`), `startSec` is
floored at 0 (negative inputs become `0.00`), and the `-ss`/`-t` values are
rendered with fixed two-decimal precision. -/
theorem C4_sanitization :
    (∀ c : ℤ, 2 ≤ clampColors c ∧ clampColors c ≤ 256) ∧
    clampColors 500 = 256 ∧
    clampColors 0 = 2 ∧
    toFixed (jsMax (mkRat 1 5) (mkRat 1 20)) = "0.20" ∧
    (∀ st : ℚ, st < 0 → toFixed (jsMax 0 st) = "0.00") ∧
    (∀ v : ℚ, ∃ pre post, toFixed v = pre ++ "." ++ post ∧ post.length = 2) ∧
    (∀ st du : ℚ,
      trimArgs st du = ["-ss", toFixed (jsMax 0 st), "-t", toFixed (jsMax (mkRat 1 5) du)]) := by
  refine ⟨?_, by decide, by decide, by decide, ?_, ?_, fun _ _ => rfl⟩
  · intro c
    unfold clampColors jsMaxInt jsMinInt
    split_ifs <;> omega
  · intro st hst
    have h0 : jsMax 0 st = 0 := by
      unfold jsMax
      rw [if_neg (not_le.mpr hst)]
    rw [h0]
    decide
  · intro v
    refine ⟨(if v < 0 then "-" else "") ++
      toString (((jsAbs v * 100 + mkRat 1 2).floor).toNat / 100),
      pad2 (((jsAbs v * 100 + mkRat 1 2).floor).toNat % 100), rfl, ?_⟩
    exact pad2_length _ (Nat.mod_lt _ (by norm_num))

/-- Witness for C4 at concrete inputs: a negative start is rendered `0.00`,
and the rendered value of `2.5` has exactly two decimals. -/
theorem C4_sanitization_witness :
    (2 ≤ clampColors 500 ∧ clampColors 500 ≤ 256) ∧
    toFixed (jsMax 0 (-3 : ℚ)) = "0.00" ∧
    (∃ pre post, toFixed (mkRat 5 2) = pre ++ "." ++ post ∧ post.length = 2) ∧
    trimArgs (-3) (mkRat 1 20) =
      ["-ss", toFixed (jsMax 0 (-3 : ℚ)), "-t", toFixed (jsMax (mkRat 1 5) (mkRat 1 20))] :=
  ⟨C4_sanitization.1 500,
   C4_sanitization.2.2.2.2.1 (-3) (by norm_num),
   C4_sanitization.2.2.2.2.2.1 (mkRat 5 2),
   C4_sanitization.2.2.2.2.2.2 (-3) (mkRat 1 20)⟩

/-- Claim C5: the shared scaling/rate filter and the trim arguments are
identical between the palette pass and the render pass: both filter strings
start with the one `scaleAndRate` expression, which carries the
`setpts=PTS/<speed>` clause exactly when `speed ≠ 1`; and both argument
lists start with the same seven tokens `-y -i <input> -ss <s> -t <t>`
coming from the one `trimArgs` list. -/
theorem C5_shared_filter (fps width colors loopCount : ℤ) (d : Dither)
    (iN pN oN : String) (st du sp : ℚ) :
    (sp = 1 → scaleAndRate fps width sp =
      "fps=" ++ toString fps ++ ",scale=" ++ toString width ++ ":-1:flags=lanczos") ∧
    (sp ≠ 1 → scaleAndRate fps width sp =
      ("fps=" ++ toString fps ++ ",scale=" ++ toString width ++ ":-1:flags=lanczos") ++
        (",setpts=PTS/" ++ jsToString sp)) ∧
    paletteVf fps width colors sp =
      scaleAndRate fps width sp ++ ",palettegen=max_colors=" ++
        toString (clampColors colors) ++ ":stats_mode=full" ∧
    renderVf fps width d sp =
      scaleAndRate fps width sp ++ "[x];[x][1:v]paletteuse=dither=" ++
        ditherStr d ++ ":diff_mode=rectangle" ∧
    (paletteArgs iN pN fps width colors st du sp).take 7 =
      ["-y", "-i", iN] ++ trimArgs st du ∧
    (renderArgs iN pN oN fps width d loopCount st du sp).take 7 =
      ["-y", "-i", iN] ++ trimArgs st du := by
  refine ⟨?_, ?_, rfl, rfl, rfl, rfl⟩
  · intro hsp
    simp [scaleAndRate, speedFilter, hsp]
  · intro hsp
    simp [scaleAndRate, speedFilter, hsp, String.append_assoc]

/-- Witness for C5 at `speed = 2`: the `setpts=PTS/2` clause is appended to
the shared filter, and both concrete argument lists share their trim
window. -/
theorem C5_shared_filter_witness :
    scaleAndRate 15 960 2 =
      ("fps=" ++ toString (15 : ℤ) ++ ",scale=" ++ toString (960 : ℤ) ++
        ":-1:flags=lanczos") ++ (",setpts=PTS/" ++ jsToString 2) ∧
    (paletteArgs "a.mp4" "p.png" 15 960 256 2 5 2).take 7 =
      ["-y", "-i", "a.mp4"] ++ trimArgs 2 5 ∧
    (renderArgs "a.mp4" "p.png" "o.gif" 15 960 .sierra2_4a 0 2 5 2).take 7 =
      ["-y", "-i", "a.mp4"] ++ trimArgs 2 5 :=
  ⟨(C5_shared_filter 15 960 256 0 .sierra2_4a "a.mp4" "p.png" "o.gif" 2 5 2).2.1
      (by norm_num),
   (C5_shared_filter 15 960 256 0 .sierra2_4a "a.mp4" "p.png" "o.gif" 2 5 2).2.2.2.2.1,
   (C5_shared_filter 15 960 256 0 .sierra2_4a "a.mp4" "p.png" "o.gif" 2 5 2).2.2.2.2.2⟩

end ConcreteEval

theorem loadFFmpeg_loaded (eng : EngineBehavior) (s : AppState) (h : s.loaded = true) :
    loadFFmpeg eng s = (s, [], true) := by
  simp [loadFFmpeg, loadFFmpegSync, h]

theorem loadFFmpeg_ok (eng : EngineBehavior) (s : AppState) (h : s.loaded = false)
    (h2 : eng.loadOk = true) :
    loadFFmpeg eng s =
      ({ s with loaded := true, status := loadedStatus }, [Ev.engineLoad], true) := by
  simp [loadFFmpeg, loadFFmpegSync, loadFFmpegResume, h, h2, loadingStatus]

theorem loadFFmpeg_fail (eng : EngineBehavior) (s : AppState) (h : s.loaded = false)
    (h2 : eng.loadOk = false) :
    loadFFmpeg eng s = ({ s with status := loadingStatus }, [Ev.engineLoad], false) := by
  simp [loadFFmpeg, loadFFmpegSync, h, h2]

theorem loadFFmpeg_cases (eng : EngineBehavior) (s : AppState) :
    (s.loaded = false ∧ eng.loadOk = false) ∨
    (s.loaded = true ∧ loadFFmpeg eng s = (s, [], true)) ∨
    (s.loaded = false ∧ eng.loadOk = true ∧
      loadFFmpeg eng s =
        ({ s with loaded := true, status := loadedStatus }, [Ev.engineLoad], true)) := by
  by_cases hsl : s.loaded
  · exact Or.inr (Or.inl ⟨hsl, loadFFmpeg_loaded eng s hsl⟩)
  · rw [Bool.not_eq_true] at hsl
    by_cases hlo : eng.loadOk
    · exact Or.inr (Or.inr ⟨hsl, hlo, loadFFmpeg_ok eng s hsl hlo⟩)
    · rw [Bool.not_eq_true] at hlo
      exact Or.inl ⟨hsl, hlo⟩

theorem phasesOf_publish (g : Option ℕ) (k : ℕ) :
    phasesOf (publish ⟨g, k⟩).2 = [] := by
  cases g <;> rfl

theorem revokedOf_publish (g : Option ℕ) (k : ℕ) :
    revokedOf (publish ⟨g, k⟩).2 = g.toList := by
  cases g <;> rfl

theorem mintedOf_publish (g : Option ℕ) (k : ℕ) :
    mintedOf (publish ⟨g, k⟩).2 = [k] := by
  cases g <;> rfl

theorem countDel_publish (g : Option ℕ) (k : ℕ) :
    (publish ⟨g, k⟩).2.countP isDeleteEv = 0 := by
  cases g <;> rfl

theorem gen_noFile (inp : GenInput) (eng : EngineBehavior) (s : AppState)
    (hf : inp.file = none) :
    generateGif inp eng s =
      ({ s with status := noFileStatus }, [Ev.phase .Validating], none) := by
  simp [generateGif, hf]

theorem gen_loadFail (inp : GenInput) (eng : EngineBehavior) (s : AppState) (f : String)
    (hf : inp.file = some f) (hsl : s.loaded = false) (hlo : eng.loadOk = false) :
    generateGif inp eng s =
      ({ s with status := failStatus, generating := false },
        [Ev.phase .Validating, Ev.phase .AwaitingEngine, Ev.engineLoad, Ev.phase .Failed],
        none) := by
  simp only [generateGif, hf, loadFFmpeg_fail eng s hsl hlo]
  simp

theorem gen_writeFail (inp : GenInput) (eng : EngineBehavior) (s s1 : AppState)
    (evL : List Ev) (f : String) (hf : inp.file = some f)
    (hL : loadFFmpeg eng s = (s1, evL, true)) (hw : eng.writeOk = false) :
    generateGif inp eng s =
      ({ s1 with generating := false, progress := 0, status := failStatus },
        [Ev.phase .Validating, Ev.phase .AwaitingEngine] ++ evL ++
          [Ev.phase .WritingInput, Ev.engineWrite (inputNameOf inp.now f),
            Ev.phase .Failed],
        none) := by
  simp only [generateGif, hf, hL]
  simp [hw, List.append_assoc]

theorem gen_paletteFail (inp : GenInput) (eng : EngineBehavior) (s s1 : AppState)
    (evL : List Ev) (f : String) (hf : inp.file = some f)
    (hL : loadFFmpeg eng s = (s1, evL, true)) (hw : eng.writeOk = true)
    (hp : eng.paletteOk = false) :
    generateGif inp eng s =
      ({ s1 with generating := false, progress := 0, status := failStatus },
        [Ev.phase .Validating, Ev.phase .AwaitingEngine] ++ evL ++
          [Ev.phase .WritingInput, Ev.engineWrite (inputNameOf inp.now f),
            Ev.phase .GeneratingPalette, Ev.engineExec (paletteArgsOf inp f),
            Ev.phase .Failed],
        none) := by
  simp only [generateGif, hf, hL]
  simp [hw, hp, List.append_assoc]

theorem gen_renderFail (inp : GenInput) (eng : EngineBehavior) (s s1 : AppState)
    (evL : List Ev) (f : String) (hf : inp.file = some f)
    (hL : loadFFmpeg eng s = (s1, evL, true)) (hw : eng.writeOk = true)
    (hp : eng.paletteOk = true) (hr : eng.renderOk = false) :
    generateGif inp eng s =
      ({ s1 with generating := false, progress := 0, status := failStatus },
        [Ev.phase .Validating, Ev.phase .AwaitingEngine] ++ evL ++
          [Ev.phase .WritingInput, Ev.engineWrite (inputNameOf inp.now f),
            Ev.phase .GeneratingPalette, Ev.engineExec (paletteArgsOf inp f),
            Ev.phase .Rendering, Ev.engineExec (renderArgsOf inp f),
            Ev.phase .Failed],
        none) := by
  simp only [generateGif, hf, hL]
  simp [hw, hp, hr, List.append_assoc]

theorem gen_readFail (inp : GenInput) (eng : EngineBehavior) (s s1 : AppState)
    (evL : List Ev) (f : String) (hf : inp.file = some f)
    (hL : loadFFmpeg eng s = (s1, evL, true)) (hw : eng.writeOk = true)
    (hp : eng.paletteOk = true) (hr : eng.renderOk = true) (hro : eng.readOut = none) :
    generateGif inp eng s =
      ({ s1 with generating := false, progress := 0, status := failStatus },
        [Ev.phase .Validating, Ev.phase .AwaitingEngine] ++ evL ++
          [Ev.phase .WritingInput, Ev.engineWrite (inputNameOf inp.now f),
            Ev.phase .GeneratingPalette, Ev.engineExec (paletteArgsOf inp f),
            Ev.phase .Rendering, Ev.engineExec (renderArgsOf inp f),
            Ev.phase .ReadingOutput, Ev.engineRead (outputNameOf inp.now),
            Ev.phase .Failed],
        none) := by
  simp only [generateGif, hf, hL]
  simp [hw, hp, hr, hro, List.append_assoc]

theorem gen_success (inp : GenInput) (eng : EngineBehavior) (s s1 : AppState)
    (evL : List Ev) (f : String) (dat : FileData) (hf : inp.file = some f)
    (hL : loadFFmpeg eng s = (s1, evL, true)) (hw : eng.writeOk = true)
    (hp : eng.paletteOk = true) (hr : eng.renderOk = true)
    (hro : eng.readOut = some dat) (hd1 : eng.deleteInputOk = true)
    (hd2 : eng.deletePaletteOk = true) (hd3 : eng.deleteOutputOk = true) :
    generateGif inp eng s =
      ({ s1 with
          generating := false
          progress := 0
          gifUrl := (publish ⟨s1.gifUrl, s1.nextUrl⟩).1.gifUrl
          nextUrl := (publish ⟨s1.gifUrl, s1.nextUrl⟩).1.nextUrl
          status := doneStatus (normalizeBytes dat) },
        [Ev.phase .Validating, Ev.phase .AwaitingEngine] ++ evL ++
          [Ev.phase .WritingInput, Ev.engineWrite (inputNameOf inp.now f),
            Ev.phase .GeneratingPalette, Ev.engineExec (paletteArgsOf inp f),
            Ev.phase .Rendering, Ev.engineExec (renderArgsOf inp f),
            Ev.phase .ReadingOutput, Ev.engineRead (outputNameOf inp.now),
            Ev.phase .Done] ++
          (publish ⟨s1.gifUrl, s1.nextUrl⟩).2 ++
          [Ev.phase .CleaningUp, Ev.engineDelete (inputNameOf inp.now f),
            Ev.engineDelete (paletteNameOf inp.now),
            Ev.engineDelete (outputNameOf inp.now)],
        some ⟨normalizeBytes dat, "image/gif", s1.nextUrl⟩) := by
  simp only [generateGif, hf, hL]
  simp [hw, hp, hr, hro, hd1, hd2, hd3, List.append_assoc]

theorem gen_failed (inp : GenInput) (eng : EngineBehavior) (s s1 : AppState)
    (evL : List Ev) (f : String) (hf : inp.file = some f)
    (hL : loadFFmpeg eng s = (s1, evL, true))
    (h : eng.writeOk = false ∨ eng.paletteOk = false ∨ eng.renderOk = false ∨
      eng.readOut = none) :
    ∃ tail : List Ev,
      generateGif inp eng s =
        ({ s1 with generating := false, progress := 0, status := failStatus },
          [Ev.phase .Validating, Ev.phase .AwaitingEngine] ++ evL ++ tail, none) ∧
      tail.countP isDeleteEv = 0 ∧ revokedOf tail = [] ∧ mintedOf tail = [] := by
  by_cases hw : eng.writeOk
  · by_cases hp : eng.paletteOk
    · by_cases hr : eng.renderOk
      · have hro : eng.readOut = none := by
          rcases h with h | h | h | h
          · exact absurd hw (by simp [h])
          · exact absurd hp (by simp [h])
          · exact absurd hr (by simp [h])
          · exact h
        exact ⟨_, gen_readFail inp eng s s1 evL f hf hL hw hp hr hro,
          by simp [isDeleteEv], by simp [revokedOf], by simp [mintedOf]⟩
      · rw [Bool.not_eq_true] at hr
        exact ⟨_, gen_renderFail inp eng s s1 evL f hf hL hw hp hr,
          by simp [isDeleteEv], by simp [revokedOf], by simp [mintedOf]⟩
    · rw [Bool.not_eq_true] at hp
      exact ⟨_, gen_paletteFail inp eng s s1 evL f hf hL hw hp,
        by simp [isDeleteEv], by simp [revokedOf], by simp [mintedOf]⟩
  · rw [Bool.not_eq_true] at hw
    exact ⟨_, gen_writeFail inp eng s s1 evL f hf hL hw,
      by simp [isDeleteEv], by simp [revokedOf], by simp [mintedOf]⟩

theorem gen_deleteFail1 (inp : GenInput) (eng : EngineBehavior) (s s1 : AppState)
    (evL : List Ev) (f : String) (dat : FileData) (hf : inp.file = some f)
    (hL : loadFFmpeg eng s = (s1, evL, true)) (hw : eng.writeOk = true)
    (hp : eng.paletteOk = true) (hr : eng.renderOk = true)
    (hro : eng.readOut = some dat) (hd1 : eng.deleteInputOk = false) :
    generateGif inp eng s =
      ({ s1 with
          generating := false
          progress := 0
          gifUrl := (publish ⟨s1.gifUrl, s1.nextUrl⟩).1.gifUrl
          nextUrl := (publish ⟨s1.gifUrl, s1.nextUrl⟩).1.nextUrl
          status := failStatus },
        [Ev.phase .Validating, Ev.phase .AwaitingEngine] ++ evL ++
          [Ev.phase .WritingInput, Ev.engineWrite (inputNameOf inp.now f),
            Ev.phase .GeneratingPalette, Ev.engineExec (paletteArgsOf inp f),
            Ev.phase .Rendering, Ev.engineExec (renderArgsOf inp f),
            Ev.phase .ReadingOutput, Ev.engineRead (outputNameOf inp.now),
            Ev.phase .Done] ++
          (publish ⟨s1.gifUrl, s1.nextUrl⟩).2 ++
          [Ev.phase .CleaningUp, Ev.engineDelete (inputNameOf inp.now f),
            Ev.phase .Failed],
        some ⟨normalizeBytes dat, "image/gif", s1.nextUrl⟩) := by
  simp only [generateGif, hf, hL]
  simp [hw, hp, hr, hro, hd1, List.append_assoc]

theorem gen_deleteFail2 (inp : GenInput) (eng : EngineBehavior) (s s1 : AppState)
    (evL : List Ev) (f : String) (dat : FileData) (hf : inp.file = some f)
    (hL : loadFFmpeg eng s = (s1, evL, true)) (hw : eng.writeOk = true)
    (hp : eng.paletteOk = true) (hr : eng.renderOk = true)
    (hro : eng.readOut = some dat) (hd1 : eng.deleteInputOk = true)
    (hd2 : eng.deletePaletteOk = false) :
    generateGif inp eng s =
      ({ s1 with
          generating := false
          progress := 0
          gifUrl := (publish ⟨s1.gifUrl, s1.nextUrl⟩).1.gifUrl
          nextUrl := (publish ⟨s1.gifUrl, s1.nextUrl⟩).1.nextUrl
          status := failStatus },
        [Ev.phase .Validating, Ev.phase .AwaitingEngine] ++ evL ++
          [Ev.phase .WritingInput, Ev.engineWrite (inputNameOf inp.now f),
            Ev.phase .GeneratingPalette, Ev.engineExec (paletteArgsOf inp f),
            Ev.phase .Rendering, Ev.engineExec (renderArgsOf inp f),
            Ev.phase .ReadingOutput, Ev.engineRead (outputNameOf inp.now),
            Ev.phase .Done] ++
          (publish ⟨s1.gifUrl, s1.nextUrl⟩).2 ++
          [Ev.phase .CleaningUp, Ev.engineDelete (inputNameOf inp.now f),
            Ev.engineDelete (paletteNameOf inp.now), Ev.phase .Failed],
        some ⟨normalizeBytes dat, "image/gif", s1.nextUrl⟩) := by
  simp only [generateGif, hf, hL]
  simp [hw, hp, hr, hro, hd1, hd2, List.append_assoc]

theorem gen_deleteFail3 (inp : GenInput) (eng : EngineBehavior) (s s1 : AppState)
    (evL : List Ev) (f : String) (dat : FileData) (hf : inp.file = some f)
    (hL : loadFFmpeg eng s = (s1, evL, true)) (hw : eng.writeOk = true)
    (hp : eng.paletteOk = true) (hr : eng.renderOk = true)
    (hro : eng.readOut = some dat) (hd1 : eng.deleteInputOk = true)
    (hd2 : eng.deletePaletteOk = true) (hd3 : eng.deleteOutputOk = false) :
    generateGif inp eng s =
      ({ s1 with
          generating := false
          progress := 0
          gifUrl := (publish ⟨s1.gifUrl, s1.nextUrl⟩).1.gifUrl
          nextUrl := (publish ⟨s1.gifUrl, s1.nextUrl⟩).1.nextUrl
          status := failStatus },
        [Ev.phase .Validating, Ev.phase .AwaitingEngine] ++ evL ++
          [Ev.phase .WritingInput, Ev.engineWrite (inputNameOf inp.now f),
            Ev.phase .GeneratingPalette, Ev.engineExec (paletteArgsOf inp f),
            Ev.phase .Rendering, Ev.engineExec (renderArgsOf inp f),
            Ev.phase .ReadingOutput, Ev.engineRead (outputNameOf inp.now),
            Ev.phase .Done] ++
          (publish ⟨s1.gifUrl, s1.nextUrl⟩).2 ++
          [Ev.phase .CleaningUp, Ev.engineDelete (inputNameOf inp.now f),
            Ev.engineDelete (paletteNameOf inp.now),
            Ev.engineDelete (outputNameOf inp.now), Ev.phase .Failed],
        some ⟨normalizeBytes dat, "image/gif", s1.nextUrl⟩) := by
  simp only [generateGif, hf, hL]
  simp [hw, hp, hr, hro, hd1, hd2, hd3, List.append_assoc]

theorem failsBeforePublish_resolve (eng : EngineBehavior) (s : AppState)
    (h : failsBeforePublish eng s) (hOk : s.loaded = true ∨ eng.loadOk = true) :
    eng.writeOk = false ∨ eng.paletteOk = false ∨ eng.renderOk = false ∨
      eng.readOut = none := by
  rcases h with ⟨h1, h2⟩ | h | h | h | h
  · rcases hOk with hOk | hOk
    · exact absurd hOk (by simp [h1])
    · exact absurd hOk (by simp [h2])
  · exact Or.inl h
  · exact Or.inr (Or.inl h)
  · exact Or.inr (Or.inr (Or.inl h))
  · exact Or.inr (Or.inr (Or.inr h))

theorem gen_eq_of_load (inp : GenInput) (eng : EngineBehavior) (sa sb s1a s1b : AppState)
    (evL : List Ev) (f : String) (hf : inp.file = some f)
    (hLa : loadFFmpeg eng sa = (s1a, evL, true))
    (hLb : loadFFmpeg eng sb = (s1b, evL, true))
    (hg : s1a.gifUrl = s1b.gifUrl) (hn : s1a.nextUrl = s1b.nextUrl) :
    (generateGif inp eng sa).2 = (generateGif inp eng sb).2 := by
  by_cases hw : eng.writeOk
  · by_cases hp : eng.paletteOk
    · by_cases hr : eng.renderOk
      · rcases hro : eng.readOut with _ | dat
        · rw [gen_readFail inp eng sa s1a evL f hf hLa hw hp hr hro,
            gen_readFail inp eng sb s1b evL f hf hLb hw hp hr hro]
        · by_cases hd1 : eng.deleteInputOk
          · by_cases hd2 : eng.deletePaletteOk
            · by_cases hd3 : eng.deleteOutputOk
              · rw [gen_success inp eng sa s1a evL f dat hf hLa hw hp hr hro hd1 hd2 hd3,
                  gen_success inp eng sb s1b evL f dat hf hLb hw hp hr hro hd1 hd2 hd3,
                  hg, hn]
              · rw [Bool.not_eq_true] at hd3
                rw [gen_deleteFail3 inp eng sa s1a evL f dat hf hLa hw hp hr hro hd1 hd2 hd3,
                  gen_deleteFail3 inp eng sb s1b evL f dat hf hLb hw hp hr hro hd1 hd2 hd3,
                  hg, hn]
            · rw [Bool.not_eq_true] at hd2
              rw [gen_deleteFail2 inp eng sa s1a evL f dat hf hLa hw hp hr hro hd1 hd2,
                gen_deleteFail2 inp eng sb s1b evL f dat hf hLb hw hp hr hro hd1 hd2,
                hg, hn]
          · rw [Bool.not_eq_true] at hd1
            rw [gen_deleteFail1 inp eng sa s1a evL f dat hf hLa hw hp hr hro hd1,
              gen_deleteFail1 inp eng sb s1b evL f dat hf hLb hw hp hr hro hd1,
              hg, hn]
      · rw [Bool.not_eq_true] at hr
        rw [gen_renderFail inp eng sa s1a evL f hf hLa hw hp hr,
          gen_renderFail inp eng sb s1b evL f hf hLb hw hp hr]
    · rw [Bool.not_eq_true] at hp
      rw [gen_paletteFail inp eng sa s1a evL f hf hLa hw hp,
        gen_paletteFail inp eng sb s1b evL f hf hLb hw hp]
  · rw [Bool.not_eq_true] at hw
    rw [gen_writeFail inp eng sa s1a evL f hf hLa hw,
      gen_writeFail inp eng sb s1b evL f hf hLb hw]

/-- Claim C1, counterexample: a job that fails right after `WritingInput`
(the palette pass throws) attempts zero deletions, not three — the three
`deleteFile` calls sit after the success path inside the `try`, so the
claimed unconditional cleanup does not happen. -/
theorem C1_cex :
    (Ev.phase .WritingInput) ∈
      (generateGif sampleInp { allOk with paletteOk := false }
        { initState with loaded := true }).2.1 ∧
    (Ev.phase .Failed) ∈
      (generateGif sampleInp { allOk with paletteOk := false }
        { initState with loaded := true }).2.1 ∧
    (generateGif sampleInp { allOk with paletteOk := false }
      { initState with loaded := true }).2.1.countP isDeleteEv = 0 ∧
    ¬ (generateGif sampleInp { allOk with paletteOk := false }
      { initState with loaded := true }).2.1.countP isDeleteEv = 3 := by
  refine ⟨by decide, by decide, by decide, by decide⟩

/-- Claim C1 (amended): cleanup is not unconditional.  On every run that
fails at or before reading the output, no deletion is attempted; the three
artifact names are deleted exactly once only on the path where the output
was read back and the result published, with every delete succeeding. -/
theorem C1_cleanup_on_success_only :
    (∀ inp eng s, failsBeforePublish eng s →
      (generateGif inp eng s).2.1.countP isDeleteEv = 0) ∧
    (∀ inp eng s f dat, inp.file = some f → (s.loaded = true ∨ eng.loadOk = true) →
      eng.writeOk = true → eng.paletteOk = true → eng.renderOk = true →
      eng.readOut = some dat → eng.deleteInputOk = true → eng.deletePaletteOk = true →
      eng.deleteOutputOk = true →
      (generateGif inp eng s).2.1.countP isDeleteEv = 3) := by
  constructor
  · intro inp eng s h
    rcases hfile : inp.file with _ | f
    · rw [gen_noFile inp eng s hfile]
      rfl
    · rcases loadFFmpeg_cases eng s with ⟨hsl, hlo⟩ | ⟨hsl, hL⟩ | ⟨hsl, hlo, hL⟩
      · rw [gen_loadFail inp eng s f hfile hsl hlo]
        rfl
      · obtain ⟨tail, hgen, hcount, -, -⟩ :=
          gen_failed inp eng s s [] f hfile hL
            (failsBeforePublish_resolve eng s h (Or.inl hsl))
        rw [hgen]
        simp [List.countP_append, hcount, isDeleteEv]
      · obtain ⟨tail, hgen, hcount, -, -⟩ :=
          gen_failed inp eng s _ [Ev.engineLoad] f hfile hL
            (failsBeforePublish_resolve eng s h (Or.inr hlo))
        rw [hgen]
        simp [List.countP_append, hcount, isDeleteEv]
  · intro inp eng s f dat hf hOk hw hp hr hro hd1 hd2 hd3
    rcases loadFFmpeg_cases eng s with ⟨hsl, hlo⟩ | ⟨hsl, hL⟩ | ⟨hsl, hlo, hL⟩
    · rcases hOk with hOk | hOk
      · exact absurd hOk (by simp [hsl])
      · exact absurd hOk (by simp [hlo])
    · rw [gen_success inp eng s s [] f dat hf hL hw hp hr hro hd1 hd2 hd3]
      simp [List.countP_append, List.countP_cons, countDel_publish, isDeleteEv]
    · rw [gen_success inp eng s _ [Ev.engineLoad] f dat hf hL hw hp hr hro hd1 hd2 hd3]
      simp [List.countP_append, List.countP_cons, countDel_publish, isDeleteEv]

/-- Witness for the amended C1: a palette failure attempts zero deletions,
a fully successful run attempts exactly three. -/
theorem C1_cleanup_on_success_only_witness :
    (generateGif sampleInp { allOk with paletteOk := false }
      { initState with loaded := true }).2.1.countP isDeleteEv = 0 ∧
    (generateGif sampleInp allOk initState).2.1.countP isDeleteEv = 3 :=
  ⟨C1_cleanup_on_success_only.1 sampleInp { allOk with paletteOk := false }
      { initState with loaded := true } (Or.inr (Or.inr (Or.inl rfl))),
   C1_cleanup_on_success_only.2 sampleInp allOk initState "clip.mp4"
      (.bin [71, 73, 70, 56, 57, 97]) rfl (Or.inr rfl) rfl rfl rfl rfl rfl rfl rfl⟩

/-- Claim C2, counterexample: on a fully successful run the phases occur
with `Done` (result wrapped and published, status set at line 138) before
`CleaningUp` (the deletes at lines 140-142), not the claimed
`CleaningUp` before `Done`. -/
theorem C2_cex :
    (generateGif sampleInp allOk initState).2.2.isSome = true ∧
    phasesOf (generateGif sampleInp allOk initState).2.1 =
      [.Validating, .AwaitingEngine, .WritingInput, .GeneratingPalette, .Rendering,
        .ReadingOutput, .Done, .CleaningUp] ∧
    ¬ phasesOf (generateGif sampleInp allOk initState).2.1 =
      [.Validating, .AwaitingEngine, .WritingInput, .GeneratingPalette, .Rendering,
        .ReadingOutput, .CleaningUp, .Done] := by
  refine ⟨by decide, by decide, by decide⟩

/-- Claim C2 (amended): every successful run passes through the states in
exactly the order Validating, AwaitingEngine, WritingInput,
GeneratingPalette, Rendering, ReadingOutput, Done, CleaningUp — the result
is published before cleanup — and the final Result has mime type
`image/gif` and positive byte length. -/
theorem C2_state_order (inp : GenInput) (eng : EngineBehavior) (s : AppState)
    (f : String) (b : List ℕ) (hf : inp.file = some f)
    (hOk : s.loaded = true ∨ eng.loadOk = true)
    (hw : eng.writeOk = true) (hp : eng.paletteOk = true) (hr : eng.renderOk = true)
    (hro : eng.readOut = some (.bin b)) (hb : b ≠ [])
    (hd1 : eng.deleteInputOk = true) (hd2 : eng.deletePaletteOk = true)
    (hd3 : eng.deleteOutputOk = true) :
    phasesOf (generateGif inp eng s).2.1 =
      [.Validating, .AwaitingEngine, .WritingInput, .GeneratingPalette, .Rendering,
        .ReadingOutput, .Done, .CleaningUp] ∧
    ∃ r, (generateGif inp eng s).2.2 = some r ∧ r.mimeType = "image/gif" ∧
      0 < r.bytes.length := by
  have hlen : 0 < b.length := List.length_pos.mpr hb
  rcases loadFFmpeg_cases eng s with ⟨hsl, hlo⟩ | ⟨hsl, hL⟩ | ⟨hsl, hlo, hL⟩
  · rcases hOk with hOk | hOk
    · exact absurd hOk (by simp [hsl])
    · exact absurd hOk (by simp [hlo])
  · rw [gen_success inp eng s s [] f (.bin b) hf hL hw hp hr hro hd1 hd2 hd3]
    rcases hgif : s.gifUrl with _ | u <;>
      exact ⟨by simp [phasesOf, publish, hgif], ⟨_, rfl, rfl, by simpa [normalizeBytes]⟩⟩
  · rw [gen_success inp eng s _ [Ev.engineLoad] f (.bin b) hf hL hw hp hr hro hd1 hd2 hd3]
    rcases hgif : s.gifUrl with _ | u <;>
      exact ⟨by simp [phasesOf, publish, hgif], ⟨_, rfl, rfl, by simpa [normalizeBytes]⟩⟩

/-- Witness for the amended C2: the end-to-end compact-preset run from a
fresh session publishes an `image/gif` result of positive length with the
phases in the stated order. -/
theorem C2_state_order_witness :
    phasesOf (generateGif sampleInp allOk initState).2.1 =
      [.Validating, .AwaitingEngine, .WritingInput, .GeneratingPalette, .Rendering,
        .ReadingOutput, .Done, .CleaningUp] ∧
    ∃ r, (generateGif sampleInp allOk initState).2.2 = some r ∧
      r.mimeType = "image/gif" ∧ 0 < r.bytes.length :=
  C2_state_order sampleInp allOk initState "clip.mp4" [71, 73, 70, 56, 57, 97] rfl
    (Or.inr rfl) rfl rfl rfl rfl (by decide) rfl rfl rfl

/-- Claim C6: after `N ≥ 1` successive publishes from a fresh holder,
exactly one handle is live (the last one minted), the `N - 1` prior handles
have all been revoked, and each publish emits its revocation before its
mint. -/
theorem C6_publish_invariant (N : ℕ) (hN : 1 ≤ N) :
    (publishN N ⟨none, 0⟩).1.gifUrl = some (N - 1) ∧
    revokedOf (publishN N ⟨none, 0⟩).2 = List.range (N - 1) ∧
    mintedOf (publishN N ⟨none, 0⟩).2 = List.range N ∧
    (∀ u k, (publish ⟨some u, k⟩).2 = [Ev.revokeUrl u, Ev.mintUrl k]) ∧
    (∀ k, (publish ⟨none, k⟩).2 = [Ev.mintUrl k]) := by
  obtain ⟨m, rfl⟩ : ∃ m, N = m + 1 := ⟨N - 1, by omega⟩
  refine ⟨?_, ?_, ?_, fun u k => rfl, fun k => rfl⟩
  all_goals cases m with
  | zero => rfl
  | succ m' =>
    obtain ⟨h1, h2, h3⟩ := publishN_props m' 0 1
    first
    | (simp only [publishN, publish] at h1 ⊢
       rw [h1]
       congr 1
       omega)
    | (simp only [publishN, publish, revokedOf, List.filterMap_append] at h2 ⊢
       simp only [Nat.add_sub_cancel]
       rw [List.range_eq_range', List.range'_succ]
       simpa using h2)
    | (simp only [publishN, publish, mintedOf, List.filterMap_append] at h3 ⊢
       rw [List.range_eq_range', List.range'_succ]
       simpa using h3)

/-- Witness for C6 at `N = 3`: handle 2 is live, handles 0 and 1 have been
revoked, three mints happened. -/
theorem C6_publish_invariant_witness :
    (publishN 3 ⟨none, 0⟩).1.gifUrl = some 2 ∧
    revokedOf (publishN 3 ⟨none, 0⟩).2 = List.range 2 ∧
    mintedOf (publishN 3 ⟨none, 0⟩).2 = List.range 3 :=
  ⟨(C6_publish_invariant 3 (by norm_num)).1,
   (C6_publish_invariant 3 (by norm_num)).2.1,
   (C6_publish_invariant 3 (by norm_num)).2.2.1⟩

/-- Claim C7, counterexample: from an unloaded session a first `loadFFmpeg`
call issues an engine load and suspends with `loaded` still false, so a
second call arriving during the in-flight load issues a second engine load
instead of joining the first — there is no single-flight guard. -/
theorem C7_cex :
    initState.loaded = false ∧
    (loadFFmpegSync initState).2 = true ∧
    (loadFFmpegSync (loadFFmpegSync initState).1).2 = true := by
  refine ⟨rfl, rfl, rfl⟩

/-- Claim C7 (amended): calling the load operation when the session is
already loaded returns immediately without re-initialising the engine, but
a call made while a load is in flight (loaded still false) starts a second
concurrent engine load rather than joining the existing one. -/
theorem C7_load_behaviour :
    (∀ eng s, s.loaded = true → loadFFmpeg eng s = (s, [], true)) ∧
    (∀ s, s.loaded = true → loadFFmpegSync s = (s, false)) ∧
    (∀ s, s.loaded = false →
      (loadFFmpegSync s).2 = true ∧ (loadFFmpegSync (loadFFmpegSync s).1).2 = true) := by
  refine ⟨fun eng s h => loadFFmpeg_loaded eng s h, fun s h => ?_, fun s h => ?_⟩
  · simp [loadFFmpegSync, h]
  · constructor <;> simp [loadFFmpegSync, h]

/-- Witness for the amended C7: a loaded session is left untouched; a fresh
session issues an engine load on both of two overlapping calls. -/
theorem C7_load_behaviour_witness :
    loadFFmpeg allOk { initState with loaded := true } =
      ({ initState with loaded := true }, [], true) ∧
    (loadFFmpegSync initState).2 = true ∧
    (loadFFmpegSync (loadFFmpegSync initState).1).2 = true :=
  ⟨C7_load_behaviour.1 allOk { initState with loaded := true } rfl,
   (C7_load_behaviour.2.2 initState rfl).1,
   (C7_load_behaviour.2.2 initState rfl).2⟩

/-- Claim C8, counterexample: with a job already in flight
(`generating = true`) a second `generateGif` call is neither rejected nor
queued: it immediately runs both engine passes and publishes a result. -/
theorem C8_cex :
    ({ initState with loaded := true, generating := true } : AppState).generating = true ∧
    (generateGif sampleInp allOk
      { initState with loaded := true, generating := true }).2.1.countP isExecEv = 2 ∧
    (generateGif sampleInp allOk
      { initState with loaded := true, generating := true }).2.2.isSome = true := by
  refine ⟨rfl, by decide, by decide⟩

/-- Claim C8 (amended): the orchestrator has no in-flight guard at all —
its engine-call trace and its published result are independent of the
`generating` flag, so a second call made while a job is active proceeds and
interleaves engine calls; only the UI shell (the disabled button) prevents
this. -/
theorem C8_no_inflight_guard :
    ∀ (inp : GenInput) (eng : EngineBehavior) (s : AppState) (b : Bool),
      (generateGif inp eng { s with generating := b }).2 =
      (generateGif inp eng { s with generating := false }).2 := by
  intro inp eng s b
  rcases hfile : inp.file with _ | f
  · rw [gen_noFile inp eng _ hfile, gen_noFile inp eng _ hfile]
  · by_cases hsl : s.loaded
    · exact gen_eq_of_load inp eng _ _ _ _ [] f hfile
        (loadFFmpeg_loaded eng { s with generating := b } (by simpa using hsl))
        (loadFFmpeg_loaded eng { s with generating := false } (by simpa using hsl))
        (by simp) (by simp)
    · rw [Bool.not_eq_true] at hsl
      by_cases hlo : eng.loadOk
      · exact gen_eq_of_load inp eng _ _ _ _ [Ev.engineLoad] f hfile
          (loadFFmpeg_ok eng { s with generating := b } (by simpa using hsl) hlo)
          (loadFFmpeg_ok eng { s with generating := false } (by simpa using hsl) hlo)
          (by simp) (by simp)
      · rw [Bool.not_eq_true] at hlo
        rw [gen_loadFail inp eng _ f hfile (by simpa using hsl) hlo,
          gen_loadFail inp eng _ f hfile (by simpa using hsl) hlo]

/-- Claim C9, counterexample: a palette-pass failure and a render-pass
failure surface identically as the one generic status string — failures are
not classified into the spec's taxonomy and carry no phase tag. -/
theorem C9_cex :
    (generateGif sampleInp { allOk with paletteOk := false }
      { initState with loaded := true }).1.status = failStatus ∧
    (generateGif sampleInp { allOk with renderOk := false }
      { initState with loaded := true }).1.status = failStatus ∧
    (generateGif sampleInp { allOk with paletteOk := false }
      { initState with loaded := true }).1.status =
      (generateGif sampleInp { allOk with renderOk := false }
        { initState with loaded := true }).1.status ∧
    (generateGif sampleInp { allOk with paletteOk := false }
      { initState with loaded := true }).2.2 = none := by
  refine ⟨by decide, by decide, by decide, by decide⟩

/-- Claim C9 (amended): every failure inside a started job is caught at the
orchestrator boundary and surfaced as the single generic status
`Conversion failed. Try a shorter clip or lower preset.` — there is no
taxonomy classification.  A failure at or before the output read leaves no
published result; a failure during the cleanup deletes shows the same
generic status even though the new result was already published.  A missing
file is reported as `Choose a video file first.` without starting a job. -/
theorem C9_generic_failure :
    (∀ inp eng s f, inp.file = some f → failsBeforePublish eng s →
      (generateGif inp eng s).1.status = failStatus ∧
      (generateGif inp eng s).2.2 = none) ∧
    (∀ inp eng s f dat, inp.file = some f → (s.loaded = true ∨ eng.loadOk = true) →
      eng.writeOk = true → eng.paletteOk = true → eng.renderOk = true →
      eng.readOut = some dat →
      (eng.deleteInputOk = false ∨ eng.deletePaletteOk = false ∨
        eng.deleteOutputOk = false) →
      (generateGif inp eng s).1.status = failStatus ∧
      (generateGif inp eng s).2.2 =
        some ⟨normalizeBytes dat, "image/gif", s.nextUrl⟩) ∧
    (∀ inp eng s, inp.file = none →
      (generateGif inp eng s).1.status = noFileStatus ∧
      (generateGif inp eng s).2.2 = none) := by
  refine ⟨?_, ?_, ?_⟩
  · intro inp eng s f hf h
    rcases loadFFmpeg_cases eng s with ⟨hsl, hlo⟩ | ⟨hsl, hL⟩ | ⟨hsl, hlo, hL⟩
    · rw [gen_loadFail inp eng s f hf hsl hlo]
      exact ⟨rfl, rfl⟩
    · obtain ⟨tail, hgen, -, -, -⟩ := gen_failed inp eng s s [] f hf hL
        (failsBeforePublish_resolve eng s h (Or.inl hsl))
      rw [hgen]
      exact ⟨rfl, rfl⟩
    · obtain ⟨tail, hgen, -, -, -⟩ := gen_failed inp eng s _ [Ev.engineLoad] f hf hL
        (failsBeforePublish_resolve eng s h (Or.inr hlo))
      rw [hgen]
      exact ⟨rfl, rfl⟩
  · intro inp eng s f dat hf hOk hw hp hr hro hdel
    have hrun : ∀ s1 evL, loadFFmpeg eng s = (s1, evL, true) → s1.nextUrl = s.nextUrl →
        (generateGif inp eng s).1.status = failStatus ∧
        (generateGif inp eng s).2.2 =
          some ⟨normalizeBytes dat, "image/gif", s.nextUrl⟩ := by
      intro s1 evL hL hn
      by_cases hd1 : eng.deleteInputOk
      · by_cases hd2 : eng.deletePaletteOk
        · have hd3 : eng.deleteOutputOk = false := by
            rcases hdel with h | h | h
            · exact absurd hd1 (by simp [h])
            · exact absurd hd2 (by simp [h])
            · exact h
          rw [gen_deleteFail3 inp eng s s1 evL f dat hf hL hw hp hr hro hd1 hd2 hd3]
          exact ⟨rfl, by rw [hn]⟩
        · rw [Bool.not_eq_true] at hd2
          rw [gen_deleteFail2 inp eng s s1 evL f dat hf hL hw hp hr hro hd1 hd2]
          exact ⟨rfl, by rw [hn]⟩
      · rw [Bool.not_eq_true] at hd1
        rw [gen_deleteFail1 inp eng s s1 evL f dat hf hL hw hp hr hro hd1]
        exact ⟨rfl, by rw [hn]⟩
    rcases loadFFmpeg_cases eng s with ⟨hsl, hlo⟩ | ⟨hsl, hL⟩ | ⟨hsl, hlo, hL⟩
    · rcases hOk with hOk | hOk
      · exact absurd hOk (by simp [hsl])
      · exact absurd hOk (by simp [hlo])
    · exact hrun s [] hL rfl
    · exact hrun _ [Ev.engineLoad] hL rfl
  · intro inp eng s hf
    rw [gen_noFile inp eng s hf]
    exact ⟨rfl, rfl⟩

/-- Witness for the amended C9: an engine-load failure yields the generic
status and no result, a cleanup-delete failure yields the same generic
status with the already-published result, and a missing file yields its
fixed status and no result. -/
theorem C9_generic_failure_witness :
    ((generateGif sampleInp { allOk with loadOk := false } initState).1.status =
      failStatus ∧
      (generateGif sampleInp { allOk with loadOk := false } initState).2.2 = none) ∧
    ((generateGif sampleInp { allOk with deleteInputOk := false }
        { initState with loaded := true }).1.status = failStatus ∧
      (generateGif sampleInp { allOk with deleteInputOk := false }
        { initState with loaded := true }).2.2 =
        some ⟨normalizeBytes (.bin [71, 73, 70, 56, 57, 97]), "image/gif",
          ({ initState with loaded := true } : AppState).nextUrl⟩) ∧
    ((generateGif { sampleInp with file := none } allOk initState).1.status =
      noFileStatus ∧
      (generateGif { sampleInp with file := none } allOk initState).2.2 = none) :=
  ⟨C9_generic_failure.1 sampleInp { allOk with loadOk := false } initState "clip.mp4"
      rfl (Or.inl ⟨rfl, rfl⟩),
   C9_generic_failure.2.1 sampleInp { allOk with deleteInputOk := false }
      { initState with loaded := true } "clip.mp4" (.bin [71, 73, 70, 56, 57, 97])
      rfl (Or.inl rfl) rfl rfl rfl rfl (Or.inl rfl),
   C9_generic_failure.2.2 { sampleInp with file := none } allOk initState rfl⟩

/-- Claim C10, counterexample: when a job fails during cleanup — after the
output was read and published — the prior handle (7) has already been
revoked and replaced by the new one (8), even though the job reports
failure; so not every failure path leaves the previous Result untouched. -/
theorem C10_cex :
    (generateGif sampleInp { allOk with deleteInputOk := false }
      { initState with loaded := true, gifUrl := some 7, nextUrl := 8 }).1.status =
      failStatus ∧
    revokedOf (generateGif sampleInp { allOk with deleteInputOk := false }
      { initState with loaded := true, gifUrl := some 7, nextUrl := 8 }).2.1 = [7] ∧
    (generateGif sampleInp { allOk with deleteInputOk := false }
      { initState with loaded := true, gifUrl := some 7, nextUrl := 8 }).1.gifUrl =
      some 8 := by
  refine ⟨by decide, by decide, by decide⟩

/-- Claim C10 (amended): on every failure path up to and including the
output read — that is, before the result is published — no handle is
revoked and the previously published `gifUrl` is left unchanged, so the
user keeps the last successful GIF; the prior handle is revoked only after
the new output bytes have been read back successfully (a failure during the
cleanup deletes happens after that publication). -/
theorem C10_result_preserved :
    ∀ inp eng s, failsBeforePublish eng s →
      revokedOf (generateGif inp eng s).2.1 = [] ∧
      (generateGif inp eng s).1.gifUrl = s.gifUrl := by
  intro inp eng s h
  rcases hfile : inp.file with _ | f
  · rw [gen_noFile inp eng s hfile]
    exact ⟨rfl, rfl⟩
  · rcases loadFFmpeg_cases eng s with ⟨hsl, hlo⟩ | ⟨hsl, hL⟩ | ⟨hsl, hlo, hL⟩
    · rw [gen_loadFail inp eng s f hfile hsl hlo]
      exact ⟨rfl, rfl⟩
    · obtain ⟨tail, hgen, -, hrev, -⟩ := gen_failed inp eng s s [] f hfile hL
        (failsBeforePublish_resolve eng s h (Or.inl hsl))
      rw [hgen]
      simp only [revokedOf] at hrev ⊢
      simp [List.filterMap_append, hrev]
    · obtain ⟨tail, hgen, -, hrev, -⟩ := gen_failed inp eng s _ [Ev.engineLoad] f hfile hL
        (failsBeforePublish_resolve eng s h (Or.inr hlo))
      rw [hgen]
      simp only [revokedOf] at hrev ⊢
      simp [List.filterMap_append, hrev]

/-- Witness for the amended C10: a render failure with a live prior handle
revokes nothing and leaves the handle in place. -/
theorem C10_result_preserved_witness :
    revokedOf (generateGif sampleInp { allOk with renderOk := false }
      { initState with loaded := true, gifUrl := some 7, nextUrl := 8 }).2.1 = [] ∧
    (generateGif sampleInp { allOk with renderOk := false }
      { initState with loaded := true, gifUrl := some 7, nextUrl := 8 }).1.gifUrl =
      ({ initState with loaded := true, gifUrl := some 7, nextUrl := 8 } : AppState).gifUrl :=
  C10_result_preserved sampleInp { allOk with renderOk := false }
    { initState with loaded := true, gifUrl := some 7, nextUrl := 8 }
    (Or.inr (Or.inr (Or.inr (Or.inl rfl))))

end GifMaker
